import Mathlib

/-!
Verification development for the Inji Verify offline credential verification
repository. The TypeScript sources are shallowly embedded as Lean definitions:

* JavaScript `any` payloads (credentials, proofs, schemas) are modeled by an
  inductive `Json` type. `JSON.stringify`/`JSON.parse` composed with
  `TextEncoder`/`TextDecoder` are the identity on JSON documents, so the BLE
  wire layer is modeled at the level of JSON values.
* Date strings are modeled by their millisecond epoch values carried as JSON
  numbers, and `new Date(v).getTime()` reads that number; a value that is not a
  number models an unparseable date (JavaScript NaN), whose order comparisons
  are always false.
* `Date.now()` and the outcomes of the `Math.random()` placeholder
  simulations (signature check, face match, bundle signature) are supplied as
  explicit environment parameters, since they are external nondeterminism.
* Code that can raise a JavaScript exception is modeled in `Except String`;
  the message of a thrown `TypeError` on a null property access is modeled by
  the fixed string "Cannot read properties of null".
-/

/-- JSON values, modeling the JavaScript `any` payloads moved through the
system (credential bodies, proofs, schema entries). -/
inductive Json where
  | null : Json
  | bool : Bool → Json
  | num : Int → Json
  | str : String → Json
  | arr : List Json → Json
  | obj : List (String × Json) → Json

namespace Json

/-- Property lookup on a JSON object: first binding wins, `none` models the
JavaScript `undefined` result, including property access on non-objects other
than `null` (which throws instead, see `getFieldEx`). -/
def fieldOpt : Json → String → Option Json
  | .obj fields, k => lookupField fields k
  | _, _ => none
where
  lookupField : List (String × Json) → String → Option Json
    | [], _ => none
    | (k, v) :: rest, key => if k = key then some v else lookupField rest key

/-- Property access that models the JavaScript exception on `null`: reading a
property of `null` throws a TypeError, every other receiver yields a value or
`undefined`. -/
def getFieldEx (j : Json) (k : String) : Except String (Option Json) :=
  match j with
  | .null => .error "Cannot read properties of null"
  | j => .ok (j.fieldOpt k)

/-- JavaScript truthiness of a JSON value. -/
def truthy : Json → Bool
  | .null => false
  | .bool b => b
  | .num n => n != 0
  | .str s => s != ""
  | .arr _ => true
  | .obj _ => true

/-- Truthiness of a possibly-`undefined` value (`none` models `undefined`). -/
def truthyOpt : Option Json → Bool
  | none => false
  | some j => truthy j

end Json

namespace BLE

/-! Embedding of src/app/src/lib/ble-verification.ts. -/

/-- The `deviceRole` union type `'wallet' | 'verifier'`. -/
inductive DeviceRole where
  | wallet : DeviceRole
  | verifier : DeviceRole
deriving DecidableEq

/-- Interface `BLEVerificationConfig`. -/
structure BLEVerificationConfig where
  deviceRole : DeviceRole
  encryptionKey : Option String
  timeoutMs : Int
  maxRetries : Int

/-- Interface `VCTransferPacket.metadata`; the optional `expiresAt` date
string is modeled by its epoch value. -/
structure VCMetadata where
  issuer : String
  issuedAt : String
  expiresAt : Option Int
  proofType : String
  context : List String

/-- Interface `VCTransferPacket`. -/
structure VCTransferPacket where
  credential : Json
  proof : Json
  metadata : VCMetadata
  nonce : String
  timestamp : Int

/-- Interface `FaceMatchResult` of ble-verification.ts (field `match` is a
Lean keyword, rendered `matched`). -/
structure FaceMatchResult where
  matched : Bool
  confidence : ℚ
  error : Option String

/-- The `verification` record inside `BLEVerificationResult`. -/
structure VerificationFlags where
  signatureValid : Bool
  issuerTrusted : Bool
  notExpired : Bool
  formatValid : Bool
  faceMatch : Option FaceMatchResult

/-- Interface `BLEVerificationResult`. -/
structure BLEVerificationResult where
  success : Bool
  credential : Json
  verification : VerificationFlags
  errors : List String
  timestamp : Int

/-- Environment for one run of `verifyCredentialOffline`: the verifier clock
and the outcomes of the `Math.random()` placeholder simulations for the
signature check and the face match. -/
structure Env where
  now : Int
  sigOk : Bool
  faceMatch : FaceMatchResult

/-- Method `validateCredentialFormat`: truthiness of the credential and of its
required fields, with JavaScript short-circuit evaluation (no property access
ever throws here because the credential itself is checked first). -/
def validateCredentialFormat (credential : Json) : Bool :=
  credential.truthy
    && Json.truthyOpt (credential.fieldOpt "@context")
    && Json.truthyOpt (credential.fieldOpt "type")
    && Json.truthyOpt (credential.fieldOpt "issuer")
    && Json.truthyOpt (credential.fieldOpt "credentialSubject")

/-- Method `checkExpiration`: a falsy `expirationDate` means non-expiring;
otherwise the date must be strictly in the future. Reading
`credential.expirationDate` on a `null` credential throws. A non-numeric
(unparseable) date gives NaN, whose comparison is false. -/
def checkExpiration (now : Int) (credential : Json) : Except String Bool := do
  let expDate ← credential.getFieldEx "expirationDate"
  if !Json.truthyOpt expDate then
    return true
  match expDate with
  | some (.num t) => return decide (t > now)
  | _ => return false

/-- The pre-provisioned trusted issuer list of method `getTrustedIssuers`. -/
def trustedIssuers : List String :=
  ["did:mosip:issuer:gov", "did:mosip:issuer:health", "did:mosip:issuer:education"]

/-- Method `verifyIssuerTrust` of the BLE service: membership in the
pre-provisioned trusted issuer list. -/
def verifyIssuerTrustBLE (issuerId : String) : Bool :=
  trustedIssuers.contains issuerId

/-- The mock key table of method `getIssuerPublicKeys`: only the three
pre-provisioned issuer ids have an entry. -/
def issuerKeyTable : List String :=
  ["did:mosip:issuer:gov", "did:mosip:issuer:health", "did:mosip:issuer:education"]

/-- Evaluation of `credential.issuer?.id`: reading `issuer` on a `null`
credential throws; a missing or non-string id yields no usable key-table
index. -/
def issuerIdOf (credential : Json) : Except String (Option String) := do
  let issuer ← credential.getFieldEx "issuer"
  match issuer with
  | none => return none
  | some i =>
      match i.fieldOpt "id" with
      | some (.str s) => return (some s)
      | _ => return none

/-- Method `verifySignature` of the BLE service: resolve the issuer keys from
the mock table, fail when absent, otherwise the simulated verification outcome
`Math.random() > 0.1` supplied by the environment. -/
def verifySignatureBLE (env : Env) (credential : Json) : Except String Bool := do
  let oid ← issuerIdOf credential
  if issuerKeyTable.contains (oid.getD "") then
    return env.sigOk
  else
    return false

/-- The all-false verdict built by the `catch` block of
`verifyCredentialOffline`. -/
def catchVerdict (credential : Json) (errs : List String) (now : Int) :
    BLEVerificationResult :=
  { success := false
    credential := credential
    verification :=
      { signatureValid := false, issuerTrusted := false, notExpired := false
        formatValid := false, faceMatch := none }
    errors := errs
    timestamp := now }

/-- Method `verifyCredentialOffline`: the four mandatory checks run in order,
each pushing a failure reason, then the optional face match (verifier role
only), then `success` as the conjunction of the four flags. Any exception
raised by a stage is caught and converted into an all-false verdict with the
error appended. -/
def verifyCredentialOffline (env : Env) (cfg : BLEVerificationConfig)
    (packet : VCTransferPacket) : BLEVerificationResult :=
  let formatValid := validateCredentialFormat packet.credential
  let errs0 := if formatValid then [] else ["Invalid credential format"]
  match checkExpiration env.now packet.credential with
  | .error msg => catchVerdict packet.credential (errs0 ++ ["Verification error: " ++ msg]) env.now
  | .ok notExpired =>
    let errs1 := errs0 ++ (if notExpired then [] else ["Credential has expired"])
    let issuerTrusted := verifyIssuerTrustBLE packet.metadata.issuer
    let errs2 := errs1 ++ (if issuerTrusted then [] else ["Untrusted issuer"])
    match verifySignatureBLE env packet.credential with
    | .error msg => catchVerdict packet.credential (errs2 ++ ["Verification error: " ++ msg]) env.now
    | .ok signatureValid =>
      let errs3 := errs2 ++ (if signatureValid then [] else ["Invalid digital signature"])
      let faceMatch :=
        if cfg.deviceRole = DeviceRole.verifier then some env.faceMatch else none
      { success := signatureValid && issuerTrusted && notExpired && formatValid
        credential := packet.credential
        verification :=
          { signatureValid := signatureValid, issuerTrusted := issuerTrusted
            notExpired := notExpired, formatValid := formatValid, faceMatch := faceMatch }
        errors := errs3
        timestamp := env.now }

/-- Method `startAdvertising`: only the wallet role may advertise; any other
role gets a thrown error. The advertising flag is set on success (the later
30-second timeout reset is radio-simulation bookkeeping outside the model). -/
def startAdvertising (cfg : BLEVerificationConfig) : Except String Bool :=
  if cfg.deviceRole ≠ DeviceRole.wallet then
    .error "Only wallet devices can advertise credentials"
  else
    .ok true

/-- Method `scanForCredentials`: only the verifier role may scan; any other
role gets a thrown error. On success the scanning flag is set and the
simulated scan yields the empty credential list. -/
def scanForCredentials (cfg : BLEVerificationConfig) :
    Except String (Bool × List VCTransferPacket) :=
  if cfg.deviceRole ≠ DeviceRole.verifier then
    .error "Only verifier devices can scan for credentials"
  else
    .ok (true, [])

/-- Function `encodeVCForBLE` composed with the JSON/UTF-8 wire layer:
`JSON.stringify` of the packet, modeled as the JSON document it serializes.
The optional `metadata.expiresAt` is dropped when `undefined`, as
`JSON.stringify` does. -/
def metadataToJson (m : VCMetadata) : Json :=
  .obj ([("issuer", .str m.issuer), ("issuedAt", .str m.issuedAt)]
    ++ (match m.expiresAt with
        | some t => [("expiresAt", .num t)]
        | none => [])
    ++ [("proofType", .str m.proofType), ("context", .arr (m.context.map Json.str))])

/-- Function `encodeVCForBLE` (see `metadataToJson`). -/
def encodeVCForBLE (p : VCTransferPacket) : Json :=
  .obj [("credential", p.credential), ("proof", p.proof),
        ("metadata", metadataToJson p.metadata),
        ("nonce", .str p.nonce), ("timestamp", .num p.timestamp)]

/-- Reading a string list out of a JSON value (the `context` array). -/
def strListFromJson : Json → Option (List String)
  | .arr xs => xs.mapM (fun j => match j with | .str s => some s | _ => none)
  | _ => none

/-- Reconstruction of the metadata record from its decoded JSON form, reading
each field the way the consumers of the parsed packet do. -/
def metadataFromJson (j : Json) : Option VCMetadata := do
  let issuer ← match j.fieldOpt "issuer" with | some (.str s) => some s | _ => none
  let issuedAt ← match j.fieldOpt "issuedAt" with | some (.str s) => some s | _ => none
  let expiresAt ← match j.fieldOpt "expiresAt" with
    | some (.num t) => some (some t)
    | none => some none
    | some _ => none
  let proofType ← match j.fieldOpt "proofType" with | some (.str s) => some s | _ => none
  let context ← match j.fieldOpt "context" with
    | some c => strListFromJson c
    | none => none
  pure { issuer := issuer, issuedAt := issuedAt, expiresAt := expiresAt
         proofType := proofType, context := context }

/-- Function `decodeVCFromBLE` composed with the wire layer: `JSON.parse` of
the received bytes, read back as a `VCTransferPacket`. -/
def decodeVCFromBLE (j : Json) : Option VCTransferPacket := do
  let credential ← j.fieldOpt "credential"
  let proof ← j.fieldOpt "proof"
  let mjson ← j.fieldOpt "metadata"
  let metadata ← metadataFromJson mjson
  let nonce ← match j.fieldOpt "nonce" with | some (.str s) => some s | _ => none
  let timestamp ← match j.fieldOpt "timestamp" with | some (.num t) => some t | _ => none
  pure { credential := credential, proof := proof, metadata := metadata
         nonce := nonce, timestamp := timestamp }

/-- Function `encodeAsCWT`: the condensed short-key encoding. Only `iss`,
`iat`, `exp`, `vc`, `proof` and `nonce` are emitted; an `undefined` `exp` is
dropped by `JSON.stringify`. The fields `metadata.issuedAt`,
`metadata.proofType` and `metadata.context` do not appear in the output. -/
def encodeAsCWT (p : VCTransferPacket) : Json :=
  .obj ([("iss", .str p.metadata.issuer), ("iat", .num p.timestamp)]
    ++ (match p.metadata.expiresAt with
        | some t => [("exp", .num t)]
        | none => [])
    ++ [("vc", p.credential), ("proof", p.proof), ("nonce", .str p.nonce)])

end BLE

namespace Trust

/-! Embedding of the trust management module (src/unnamed/part_003). -/

/-- The closed key algorithm set of `IssuerPublicKey.type`. -/
inductive KeyType where
  | RSA : KeyType
  | Ed25519 : KeyType
  | ECDSA : KeyType
deriving DecidableEq

/-- Interface `IssuerPublicKey`; the optional `expiresAt` is an epoch number
in the source already. -/
structure IssuerPublicKey where
  id : String
  type : KeyType
  publicKey : String
  algorithm : String
  expiresAt : Option Int
  revoked : Bool

/-- The `metadata` record of a `TrustedIssuer`. -/
structure IssuerMetadata where
  verificationMethod : String
  assertionMethod : String
  wellKnownUrl : Option String
  supportedProofTypes : List String

/-- Interface `TrustedIssuer`. -/
structure TrustedIssuer where
  id : String
  name : String
  publicKeys : List IssuerPublicKey
  metadata : IssuerMetadata
  lastUpdated : Int

/-- Interface `RevocationList`. -/
structure RevocationList where
  issuerId : String
  revokedCredentials : List String
  lastUpdated : Int
  nextUpdate : Int
  signature : String

/-- Interface `TrustBundle`. -/
structure TrustBundle where
  issuers : List TrustedIssuer
  revocationLists : List RevocationList
  schemas : List Json
  contexts : List Json
  version : String
  expiresAt : Int
  signature : String

/-- The mutable state of `TrustManagementService`: the optional in-memory
bundle and the revocation cache (a string-keyed `Map`, modeled as an
association list where the most recent `set` is found first). -/
structure TrustState where
  trustBundle : Option TrustBundle
  revocationCache : List (String × RevocationList)

/-- The fresh service state produced by `createTrustManagementService`. -/
def initialTrustState : TrustState :=
  { trustBundle := none, revocationCache := [] }

/-- `Map.set` on the revocation cache: the new binding shadows any older one. -/
def cacheSet (cache : List (String × RevocationList)) (k : String)
    (v : RevocationList) : List (String × RevocationList) :=
  (k, v) :: cache

/-- `Map.get` on the revocation cache. -/
def cacheGet (cache : List (String × RevocationList)) (k : String) :
    Option RevocationList :=
  match cache with
  | [] => none
  | (k2, v) :: rest => if k2 = k then some v else cacheGet rest k

/-- Method `loadTrustBundle`. The fetch-and-parse of the bundle source is the
external input (an `Except` carrying either the parsed bundle or the fetch or
parse failure message); a failure is re-thrown wrapped, a success installs the
bundle and caches each of its revocation lists in order. -/
def loadTrustBundle (fetched : Except String TrustBundle) (st : TrustState) :
    Except String TrustState :=
  match fetched with
  | .error msg => .error ("Trust bundle loading failed: " ++ msg)
  | .ok bundle =>
      .ok { trustBundle := some bundle
            revocationCache :=
              bundle.revocationLists.foldl
                (fun c rl => cacheSet c rl.issuerId rl) st.revocationCache }

/-- The per-key test inside `isIssuerExpired`: in the source the optional
`expiresAt` is tested for truthiness first, so a missing or zero epoch never
counts as expired. -/
def keyExpired (now : Int) (k : IssuerPublicKey) : Bool :=
  match k.expiresAt with
  | some t => t != 0 && t < now
  | none => false

/-- Private method `isIssuerExpired`: every public key of the issuer is
expired. -/
def isIssuerExpired (now : Int) (issuer : TrustedIssuer) : Bool :=
  issuer.publicKeys.all (keyExpired now)

/-- Method `verifyIssuerTrust`: throws when no bundle is loaded; otherwise the
issuer must be found by id and not have all keys expired. The `revoked` flag
of the keys is not consulted. -/
def verifyIssuerTrust (now : Int) (st : TrustState) (issuerId : String) :
    Except String Bool :=
  match st.trustBundle with
  | none => .error "Trust bundle not loaded"
  | some bundle =>
      match bundle.issuers.find? (fun i => i.id = issuerId) with
      | none => .ok false
      | some issuer => .ok (!isIssuerExpired now issuer)

/-- The default-branch key filter of `getIssuerPublicKey`: not revoked and
`(!k.expiresAt || k.expiresAt > Date.now())`, where a zero epoch is falsy. -/
def keyUsable (now : Int) (k : IssuerPublicKey) : Bool :=
  !k.revoked &&
    (match k.expiresAt with
     | none => true
     | some t => t == 0 || t > now)

/-- Method `getIssuerPublicKey`: throws when no bundle is loaded; unknown
issuer gives `none`; a truthy `keyId` selects by exact id; otherwise the first
non-revoked, non-expired key in list order. -/
def getIssuerPublicKey (now : Int) (st : TrustState) (issuerId : String)
    (keyId : Option String) : Except String (Option IssuerPublicKey) :=
  match st.trustBundle with
  | none => .error "Trust bundle not loaded"
  | some bundle =>
      match bundle.issuers.find? (fun i => i.id = issuerId) with
      | none => .ok none
      | some issuer =>
          match keyId with
          | some kid =>
              if kid ≠ "" then .ok (issuer.publicKeys.find? (fun k => k.id = kid))
              else .ok (issuer.publicKeys.find? (keyUsable now))
          | none => .ok (issuer.publicKeys.find? (keyUsable now))

/-- Method `verifyCredentialRevocation`: a total query that never needs the
bundle. It returns `true` when the credential passes the revocation check
(is not revoked): with no cached list for the issuer it assumes not revoked;
otherwise the credential id must be absent from the cached list. -/
def verifyCredentialRevocation (st : TrustState) (issuerId credentialId : String) :
    Bool :=
  match cacheGet st.revocationCache issuerId with
  | none => true
  | some rl => !rl.revokedCredentials.contains credentialId

/-- Method `getSupportedProofTypes`: throws when no bundle is loaded. -/
def getSupportedProofTypes (st : TrustState) (issuerId : String) :
    Except String (List String) :=
  match st.trustBundle with
  | none => .error "Trust bundle not loaded"
  | some bundle =>
      match bundle.issuers.find? (fun i => i.id = issuerId) with
      | none => .ok []
      | some issuer => .ok issuer.metadata.supportedProofTypes

/-- JavaScript strict equality between possibly-`undefined` JSON values, as
used by `validateCredentialSchema`. Arrays and objects compare by reference,
which for distinct parsed documents is modeled as never equal; primitives
compare structurally, and `undefined === undefined` holds. -/
def jsStrictEqOpt : Option Json → Option Json → Bool
  | none, none => true
  | some .null, some .null => true
  | some (.bool a), some (.bool b) => a == b
  | some (.num a), some (.num b) => a == b
  | some (.str a), some (.str b) => a == b
  | _, _ => false

/-- Short-circuiting `Array.some` over a predicate that may throw. -/
def anyEx (p : Json → Except String Bool) : List Json → Except String Bool
  | [] => .ok false
  | x :: xs => do
      let b ← p x
      if b then return true else anyEx p xs

/-- Method `validateCredentialSchema`: throws when no bundle is loaded;
otherwise some schema entry must strictly equal the credential type or list it
in its `supportedTypes`. Reading `credential.type` on a `null` credential
throws, as does reading `schema.type` on a `null` schema entry. -/
def validateCredentialSchema (st : TrustState) (credential : Json) :
    Except String Bool :=
  match st.trustBundle with
  | none => .error "Trust bundle not loaded"
  | some bundle => do
      let credentialType ← credential.getFieldEx "type"
      anyEx
        (fun schema => do
          let sType ← schema.getFieldEx "type"
          pure (jsStrictEqOpt sType credentialType
            || (match schema.fieldOpt "supportedTypes" with
                | some (.arr xs) => xs.any (fun x => jsStrictEqOpt (some x) credentialType)
                | _ => false)))
        bundle.schemas

/-- Method `updateRevocationList`: hot-swaps one cached list. -/
def updateRevocationList (st : TrustState) (issuerId : String)
    (list : RevocationList) : TrustState :=
  { st with revocationCache := cacheSet st.revocationCache issuerId list }

/-- Method `isTrustBundleValid`: false without a bundle, false when the bundle
expiry has passed, otherwise the simulated bundle signature outcome supplied
by the environment. -/
def isTrustBundleValid (now : Int) (sigOk : Bool) (st : TrustState) : Bool :=
  match st.trustBundle with
  | none => false
  | some b => if b.expiresAt < now then false else sigOk

/-- Exported function `validateTrustBundleIntegrity`: non-empty issuer list,
truthy version string, unexpired bundle. -/
def validateTrustBundleIntegrity (now : Int) (bundle : TrustBundle) : Bool :=
  !bundle.issuers.isEmpty && bundle.version != "" && decide (bundle.expiresAt > now)

end Trust

namespace FaceM

/-! Embedding of src/app/src/lib/face-match.ts. The face detection and the
face similarity computation are `Math.random()`-driven placeholders for the
external tflite/ML Kit model, so they are supplied as oracle parameters; the
control flow of `matchFaces` around them is translated from the source. -/

/-- The image format union `'jpeg' | 'png' | 'webp'`. -/
inductive ImageFormat where
  | jpeg : ImageFormat
  | png : ImageFormat
  | webp : ImageFormat
deriving DecidableEq

/-- Interface `FaceImage`; the pixel buffer is a byte list. -/
structure FaceImage where
  data : List Nat
  format : ImageFormat
  width : Int
  height : Int

/-- Interface `FaceMatchConfig`. -/
structure FaceMatchConfig where
  confidenceThreshold : ℚ
  maxFaces : Int
  modelPath : String

/-- Exported constant `DEFAULT_FACE_MATCH_CONFIG`. -/
def DEFAULT_FACE_MATCH_CONFIG : FaceMatchConfig :=
  { confidenceThreshold := 4/5, maxFaces := 5, modelPath := "/models/face_match.tflite" }

/-- A bounding box of a detected face. -/
structure BoundingBox where
  x : ℚ
  y : ℚ
  width : ℚ
  height : ℚ

/-- One detected face as produced by the detection backend. -/
structure DetectedFace where
  boundingBox : BoundingBox
  landmarks : List (ℚ × ℚ)
  confidence : ℚ

/-- Interface `FaceDetectionResult`. -/
structure FaceDetectionResult where
  faces : List DetectedFace
  success : Bool
  error : Option String

/-- Interface `FaceMatchResult` of face-match.ts (field `match` is a Lean
keyword, rendered `matched`). -/
structure FaceMatchResult where
  matched : Bool
  confidence : ℚ
  similarity : ℚ
  error : Option String

/-- Method `detectFaces`: throws when the model is not loaded; otherwise the
detection backend result is wrapped with `success := true` (the catch branch
fires only if the backend itself throws, which a total oracle never does). -/
def detectFaces (modelLoaded : Bool) (detect : FaceImage → List DetectedFace)
    (image : FaceImage) : Except String FaceDetectionResult :=
  if !modelLoaded then
    .error "Face matching service not initialized"
  else
    .ok { faces := detect image, success := true, error := none }

/-- Method `matchFaces`: throws when the model is not loaded; detects faces in
both images; an empty detection in either image yields a no-match result with
the image-specific error; otherwise the first faces of each image are
compared, the confidence is the similarity boosted by 1.2 and capped at 1, and
the match flag is the threshold comparison. -/
def matchFaces (modelLoaded : Bool) (detect : FaceImage → List DetectedFace)
    (similarity : DetectedFace → DetectedFace → ℚ) (cfg : FaceMatchConfig)
    (referenceImage candidateImage : FaceImage) : Except String FaceMatchResult :=
  if !modelLoaded then
    .error "Face matching service not initialized"
  else
    match detectFaces modelLoaded detect referenceImage with
    | .error e => .ok { matched := false, confidence := 0, similarity := 0, error := some e }
    | .ok refFaces =>
      match detectFaces modelLoaded detect candidateImage with
      | .error e => .ok { matched := false, confidence := 0, similarity := 0, error := some e }
      | .ok candFaces =>
        match refFaces.faces with
        | [] =>
            .ok { matched := false, confidence := 0, similarity := 0
                  error := some "No face detected in reference image" }
        | refFace :: _ =>
          match candFaces.faces with
          | [] =>
              .ok { matched := false, confidence := 0, similarity := 0
                    error := some "No face detected in candidate image" }
          | candFace :: _ =>
            let sim := similarity refFace candFace
            let confidence := min (sim * (12/10)) 1
            let matched := decide (confidence ≥ cfg.confidenceThreshold)
            .ok { matched := matched, confidence := confidence, similarity := sim
                  error := if matched then none
                           else some "Face match confidence below threshold" }

end FaceM

/-! Concrete fixtures used by witnesses and counterexamples. -/

/-- A well-formed credential packet from the pre-provisioned government
issuer, carrying no expiration date and the credential id cred-1. -/
def packetGood : BLE.VCTransferPacket :=
  { credential := .obj
      [("@context", .arr [.str "https://www.w3.org/2018/credentials/v1"]),
       ("id", .str "cred-1"),
       ("type", .arr [.str "VerifiableCredential"]),
       ("issuer", .obj [("id", .str "did:mosip:issuer:gov")]),
       ("credentialSubject", .obj [("id", .str "did:mosip:holder:123")])]
    proof := .obj [("type", .str "Ed25519Signature2020")]
    metadata :=
      { issuer := "did:mosip:issuer:gov", issuedAt := "2026-01-01"
        expiresAt := none, proofType := "Ed25519Signature2020"
        context := ["https://www.w3.org/2018/credentials/v1"] }
    nonce := "nonce-1"
    timestamp := 100 }

/-- A degenerate packet whose credential is JSON `null`, as the error-handling
test of the repository feeds to the pipeline. -/
def packetNull : BLE.VCTransferPacket :=
  { credential := .null, proof := .null
    metadata := { issuer := "", issuedAt := "", expiresAt := none
                  proofType := "", context := [] }
    nonce := "", timestamp := 0 }

/-- An environment whose simulated signature draw succeeds. -/
def envGood : BLE.Env :=
  { now := 1000, sigOk := true, faceMatch := { matched := true, confidence := 1, error := none } }

/-- A verifier-role configuration. -/
def cfgVerifier : BLE.BLEVerificationConfig :=
  { deviceRole := .verifier, encryptionKey := none, timeoutMs := 30000, maxRetries := 3 }

/-- A wallet-role configuration. -/
def cfgWallet : BLE.BLEVerificationConfig :=
  { deviceRole := .wallet, encryptionKey := none, timeoutMs := 30000, maxRetries := 3 }

/-- A public key that is revoked but not expired. -/
def revokedKey : Trust.IssuerPublicKey :=
  { id := "k1", type := .Ed25519, publicKey := "pk", algorithm := "EdDSA"
    expiresAt := none, revoked := true }

/-- An issuer whose every key is revoked (and none expired). -/
def revokedIssuer : Trust.TrustedIssuer :=
  { id := "i1", name := "Revoked Issuer", publicKeys := [revokedKey]
    metadata := { verificationMethod := "k1", assertionMethod := "k1"
                  wellKnownUrl := none, supportedProofTypes := [] }
    lastUpdated := 0 }

/-- A bundle holding only the all-keys-revoked issuer. -/
def revokedBundle : Trust.TrustBundle :=
  { issuers := [revokedIssuer], revocationLists := [], schemas := [], contexts := []
    version := "1.0.0", expiresAt := 10000, signature := "sig" }

/-- A loaded trust state holding `revokedBundle`. -/
def stRevoked : Trust.TrustState :=
  { trustBundle := some revokedBundle, revocationCache := [] }

/-- A cached revocation list for issuer i1 revoking credential c1. -/
def rlOne : Trust.RevocationList :=
  { issuerId := "i1", revokedCredentials := ["c1"], lastUpdated := 0
    nextUpdate := 0, signature := "sig" }

/-- A state with no bundle but one cached revocation list. -/
def stRl : Trust.TrustState :=
  { trustBundle := none, revocationCache := [("i1", rlOne)] }

/-- A state whose revocation cache marks cred-1 of the government issuer as
revoked; no bundle is needed for the revocation query. -/
def stRevGov : Trust.TrustState :=
  { trustBundle := none
    revocationCache :=
      [("did:mosip:issuer:gov",
        { issuerId := "did:mosip:issuer:gov", revokedCredentials := ["cred-1"]
          lastUpdated := 0, nextUpdate := 0, signature := "sig" })] }

/-- A trust bundle violating every load-time requirement the specification
names: empty issuer list, empty version, expiry in the past, and a signature
nothing verifies. -/
def badBundle : Trust.TrustBundle :=
  { issuers := [], revocationLists := [], schemas := [], contexts := []
    version := "", expiresAt := 0, signature := "bad" }

/-- A concrete face image fixture. -/
def imgW : FaceM.FaceImage :=
  { data := [], format := .jpeg, width := 640, height := 480 }

/-- Packet differing from `packetCwtB` only in `metadata.proofType`. -/
def packetCwtA : BLE.VCTransferPacket :=
  { credential := .null, proof := .null
    metadata := { issuer := "i1", issuedAt := "t0", expiresAt := none
                  proofType := "Ed25519Signature2020", context := [] }
    nonce := "n", timestamp := 5 }

/-- Packet differing from `packetCwtA` only in `metadata.proofType`. -/
def packetCwtB : BLE.VCTransferPacket :=
  { credential := .null, proof := .null
    metadata := { issuer := "i1", issuedAt := "t0", expiresAt := none
                  proofType := "RsaSignature2018", context := [] }
    nonce := "n", timestamp := 5 }

/-! Theorems settling the claims. -/

/-- Helper for claim C1: the success flag of a verdict does not depend on the
face-match component of the environment. -/
theorem success_faceMatch_independent (now : Int) (sigOk : Bool)
    (fm1 fm2 : BLE.FaceMatchResult) (cfg : BLE.BLEVerificationConfig)
    (packet : BLE.VCTransferPacket) :
    (BLE.verifyCredentialOffline ⟨now, sigOk, fm1⟩ cfg packet).success
      = (BLE.verifyCredentialOffline ⟨now, sigOk, fm2⟩ cfg packet).success := by
  have hsig : BLE.verifySignatureBLE ⟨now, sigOk, fm2⟩ packet.credential
      = BLE.verifySignatureBLE ⟨now, sigOk, fm1⟩ packet.credential := rfl
  unfold BLE.verifyCredentialOffline
  rw [hsig]
  cases hE : BLE.checkExpiration now packet.credential with
  | error msg => rfl
  | ok notExpired =>
      cases hS : BLE.verifySignatureBLE ⟨now, sigOk, fm1⟩ packet.credential with
      | error msg => rfl
      | ok signatureValid => rfl

/-- Claim C1: for every credential packet, the overall success flag of the
returned verdict is true iff all four mandatory check flags (formatValid,
notExpired, issuerTrusted, signatureValid) are true, and the flag is
independent of the face-match component of the environment. -/
theorem c1_success_mandatory_and (env : BLE.Env) (cfg : BLE.BLEVerificationConfig)
    (packet : BLE.VCTransferPacket) :
    ((BLE.verifyCredentialOffline env cfg packet).success = true ↔
      ((BLE.verifyCredentialOffline env cfg packet).verification.formatValid = true
        ∧ (BLE.verifyCredentialOffline env cfg packet).verification.notExpired = true
        ∧ (BLE.verifyCredentialOffline env cfg packet).verification.issuerTrusted = true
        ∧ (BLE.verifyCredentialOffline env cfg packet).verification.signatureValid = true))
    ∧ ∀ fm : BLE.FaceMatchResult,
        (BLE.verifyCredentialOffline { env with faceMatch := fm } cfg packet).success
          = (BLE.verifyCredentialOffline env cfg packet).success := by
  obtain ⟨now, sigOk, fm0⟩ := env
  constructor
  · unfold BLE.verifyCredentialOffline
    cases hE : BLE.checkExpiration now packet.credential with
    | error msg => simp [BLE.catchVerdict]
    | ok notExpired =>
        cases hS : BLE.verifySignatureBLE ⟨now, sigOk, fm0⟩ packet.credential with
        | error msg => simp [BLE.catchVerdict]
        | ok signatureValid =>
            simp only [Bool.and_eq_true]
            tauto
  · intro fm
    exact success_faceMatch_independent now sigOk fm fm0 cfg packet

/-- Witness for claim C1 at a concrete passing run: all four mandatory flags
hold, so the success flag is true. -/
theorem c1_witness :
    (BLE.verifyCredentialOffline envGood cfgVerifier packetGood).success = true :=
  (c1_success_mandatory_and envGood cfgVerifier packetGood).1.mpr
    ⟨by decide, by decide, by decide, by decide⟩

/-- Claim C4: the pipeline is total (it returns a `BLEVerificationResult`, not
an exception), and when a stage raises internally (the expiry stage throws on
a null credential) the catch block produces a verdict with every check flag
false, success false, and the wrapped error appended at the end of the
failure-reason list. -/
theorem c4_catch_all_false (env : BLE.Env) (cfg : BLE.BLEVerificationConfig)
    (packet : BLE.VCTransferPacket) (msg : String)
    (h : BLE.checkExpiration env.now packet.credential = Except.error msg) :
    (BLE.verifyCredentialOffline env cfg packet).verification =
      { signatureValid := false, issuerTrusted := false, notExpired := false
        formatValid := false, faceMatch := none }
    ∧ (BLE.verifyCredentialOffline env cfg packet).success = false
    ∧ (BLE.verifyCredentialOffline env cfg packet).errors.getLast?
        = some ("Verification error: " ++ msg) := by
  unfold BLE.verifyCredentialOffline
  rw [h]
  refine ⟨rfl, rfl, ?_⟩
  simp [BLE.catchVerdict]

/-- Witness for claim C4: the null-credential packet makes the expiry stage
throw, and the returned verdict is the all-false one with the error last. -/
theorem c4_witness :
    (BLE.verifyCredentialOffline envGood cfgVerifier packetNull).success = false
    ∧ (BLE.verifyCredentialOffline envGood cfgVerifier packetNull).errors.getLast?
        = some "Verification error: Cannot read properties of null" := by
  have h := c4_catch_all_false envGood cfgVerifier packetNull
    "Cannot read properties of null" rfl
  exact ⟨h.2.1, h.2.2⟩

/-- Claim C9: a wallet-role session cannot scan and a verifier-role session
cannot advertise; both operations return the role-violation error rather than
succeeding as a no-op. -/
theorem c9_role_enforcement (cfg : BLE.BLEVerificationConfig) :
    (cfg.deviceRole = BLE.DeviceRole.wallet →
      BLE.scanForCredentials cfg
        = .error "Only verifier devices can scan for credentials")
    ∧ (cfg.deviceRole = BLE.DeviceRole.verifier →
      BLE.startAdvertising cfg
        = .error "Only wallet devices can advertise credentials") := by
  constructor
  · intro h
    simp [BLE.scanForCredentials, h]
  · intro h
    simp [BLE.startAdvertising, h]

/-- Witness for claim C9 at the two concrete configurations. -/
theorem c9_witness :
    BLE.scanForCredentials cfgWallet
      = .error "Only verifier devices can scan for credentials"
    ∧ BLE.startAdvertising cfgVerifier
      = .error "Only wallet devices can advertise credentials" :=
  ⟨(c9_role_enforcement cfgWallet).1 rfl, (c9_role_enforcement cfgVerifier).2 rfl⟩

/-- Claim C3: the revocation query reports revoked (returns false, meaning
the credential does not pass the check) exactly when a list is cached for the
issuer and contains the credential id; with no cached list it reports not
revoked regardless of the credential id. -/
theorem c3_revocation_fail_open (st : Trust.TrustState)
    (issuerId credentialId : String) :
    (Trust.verifyCredentialRevocation st issuerId credentialId = false ↔
      ∃ rl, Trust.cacheGet st.revocationCache issuerId = some rl
        ∧ credentialId ∈ rl.revokedCredentials)
    ∧ (Trust.cacheGet st.revocationCache issuerId = none →
        Trust.verifyCredentialRevocation st issuerId credentialId = true) := by
  unfold Trust.verifyCredentialRevocation
  cases hG : Trust.cacheGet st.revocationCache issuerId with
  | none => simp
  | some rl =>
      constructor
      · constructor
        · intro hFalse
          refine ⟨rl, rfl, ?_⟩
          simpa using hFalse
        · rintro ⟨rl2, hrl2, hmem⟩
          obtain rfl := Option.some.inj hrl2
          simpa using hmem
      · intro hNone
        cases hNone

/-- Witness for claim C3 at a concrete cache: the cached list marks c1
revoked, and an issuer without a cached list is fail-open. -/
theorem c3_witness :
    Trust.verifyCredentialRevocation stRl "i1" "c1" = false
    ∧ Trust.verifyCredentialRevocation stRl "other" "c1" = true :=
  ⟨(c3_revocation_fail_open stRl "i1" "c1").1.mpr ⟨rlOne, rfl, by decide⟩,
   (c3_revocation_fail_open stRl "other" "c1").2 rfl⟩

/-- Claim C10: with no bundle loaded, issuer trust, public-key lookup,
supported proof types and schema validation all fail with the not-loaded
error, while the revocation query is a total boolean function (it cannot
raise that error by construction) and with an empty cache answers not revoked
for every issuer and credential pair. -/
theorem c10_revocation_never_preconditioned (st : Trust.TrustState) (now : Int)
    (issuerId credentialId : String) (keyId : Option String) (credential : Json)
    (h : st.trustBundle = none) :
    Trust.verifyIssuerTrust now st issuerId = .error "Trust bundle not loaded"
    ∧ Trust.getIssuerPublicKey now st issuerId keyId = .error "Trust bundle not loaded"
    ∧ Trust.getSupportedProofTypes st issuerId = .error "Trust bundle not loaded"
    ∧ Trust.validateCredentialSchema st credential = .error "Trust bundle not loaded"
    ∧ (st.revocationCache = [] →
        Trust.verifyCredentialRevocation st issuerId credentialId = true) := by
  refine ⟨?_, ?_, ?_, ?_, ?_⟩
  · unfold Trust.verifyIssuerTrust; rw [h]
  · unfold Trust.getIssuerPublicKey; rw [h]
  · unfold Trust.getSupportedProofTypes; rw [h]
  · unfold Trust.validateCredentialSchema; rw [h]
  · intro hc
    unfold Trust.verifyCredentialRevocation
    rw [hc]
    rfl

/-- Witness for claim C10 at the fresh service state. -/
theorem c10_witness :
    Trust.verifyIssuerTrust 0 Trust.initialTrustState "i1"
      = .error "Trust bundle not loaded"
    ∧ Trust.verifyCredentialRevocation Trust.initialTrustState "i1" "c1" = true := by
  have h := c10_revocation_never_preconditioned Trust.initialTrustState 0 "i1" "c1"
    none Json.null rfl
  exact ⟨h.1, h.2.2.2.2 rfl⟩

/-- Counterexample to claim C7 as stated: a bundle that is expired, has no
issuers and an empty version (so the integrity validator rejects it, and the
post-hoc validity check rejects it) still loads successfully and is installed
as the in-memory bundle; `loadTrustBundle` performs none of the claimed
checks. -/
theorem c7_counterexample :
    Trust.validateTrustBundleIntegrity 100 badBundle = false
    ∧ Trust.isTrustBundleValid 100 true
        { trustBundle := some badBundle, revocationCache := [] } = false
    ∧ Trust.loadTrustBundle (.ok badBundle) Trust.initialTrustState
        = .ok { trustBundle := some badBundle, revocationCache := [] } :=
  ⟨rfl, rfl, rfl⟩

/-- Claim C7 as amended: loading fails only when the fetch or parse of the
bundle source fails, in which case the error is re-thrown wrapped; every
successfully parsed bundle is installed unconditionally, with no signature,
expiry or structural validation at load time. -/
theorem c7_load_installs_unconditionally (fetched : Except String Trust.TrustBundle)
    (st : Trust.TrustState) :
    (∀ msg, fetched = .error msg →
      Trust.loadTrustBundle fetched st
        = .error ("Trust bundle loading failed: " ++ msg))
    ∧ (∀ bundle, fetched = .ok bundle →
        ∃ st2, Trust.loadTrustBundle fetched st = .ok st2
          ∧ st2.trustBundle = some bundle) := by
  constructor
  · intro msg hmsg
    rw [hmsg]
    rfl
  · intro bundle hbundle
    rw [hbundle]
    exact ⟨_, rfl, rfl⟩

/-- Witness for the amended claim C7: a failing fetch is wrapped, and the
defective concrete bundle is installed. -/
theorem c7_witness :
    Trust.loadTrustBundle (.error "Not Found") Trust.initialTrustState
      = .error "Trust bundle loading failed: Not Found"
    ∧ ∃ st2, Trust.loadTrustBundle (.ok badBundle) Trust.initialTrustState = .ok st2
        ∧ st2.trustBundle = some badBundle :=
  ⟨(c7_load_installs_unconditionally (.error "Not Found") Trust.initialTrustState).1
      "Not Found" rfl,
   (c7_load_installs_unconditionally (.ok badBundle) Trust.initialTrustState).2
      badBundle rfl⟩

/-- Counterexample to claim C2 as stated: an issuer whose every public key is
revoked (but unexpired) is reported as trusted, because `verifyIssuerTrust`
only consults key expiry, never the `revoked` flag. -/
theorem c2_counterexample :
    (∀ k ∈ revokedIssuer.publicKeys, k.revoked = true)
    ∧ Trust.verifyIssuerTrust 1000 stRevoked "i1" = .ok true := by
  constructor
  · decide
  · rfl

/-- Claim C2 as amended: with no bundle loaded the query fails with the
not-loaded error; with a bundle loaded it answers false for an issuer id not
present, and for a present issuer it answers true exactly when at least one
key is not expired, where a key counts as expired only if it has a truthy
(nonzero) `expiresAt` in the past. The `revoked` flag of the keys is not
consulted. -/
theorem c2_issuer_trust (now : Int) (st : Trust.TrustState) (issuerId : String) :
    (st.trustBundle = none →
      Trust.verifyIssuerTrust now st issuerId = .error "Trust bundle not loaded")
    ∧ ∀ bundle, st.trustBundle = some bundle →
        (bundle.issuers.find? (fun i => i.id = issuerId) = none →
          Trust.verifyIssuerTrust now st issuerId = .ok false)
        ∧ ∀ issuer, bundle.issuers.find? (fun i => i.id = issuerId) = some issuer →
            (Trust.verifyIssuerTrust now st issuerId = .ok true ↔
              ∃ k ∈ issuer.publicKeys, Trust.keyExpired now k = false) := by
  constructor
  · intro h
    unfold Trust.verifyIssuerTrust
    rw [h]
  · intro bundle hb
    constructor
    · intro hfind
      unfold Trust.verifyIssuerTrust
      rw [hb]
      dsimp only
      rw [hfind]
    · intro issuer hfind
      unfold Trust.verifyIssuerTrust
      rw [hb]
      dsimp only
      rw [hfind]
      unfold Trust.isIssuerExpired
      simp only [Except.ok.injEq, Bool.not_eq_true']
      rw [Bool.eq_false_iff, Ne, List.all_eq_true]
      push_neg
      simp [Bool.not_eq_true]

/-- Witness for the amended claim C2: the not-loaded error on the fresh
state, false for an absent issuer, and true for the all-revoked issuer whose
single key is unexpired. -/
theorem c2_witness :
    Trust.verifyIssuerTrust 1000 Trust.initialTrustState "i1"
      = .error "Trust bundle not loaded"
    ∧ Trust.verifyIssuerTrust 1000 stRevoked "absent" = .ok false
    ∧ Trust.verifyIssuerTrust 1000 stRevoked "i1" = .ok true :=
  ⟨(c2_issuer_trust 1000 Trust.initialTrustState "i1").1 rfl,
   ((c2_issuer_trust 1000 stRevoked "absent").2 revokedBundle rfl).1 rfl,
   (((c2_issuer_trust 1000 stRevoked "i1").2 revokedBundle rfl).2 revokedIssuer
      rfl).mpr ⟨revokedKey, by simp [revokedIssuer], rfl⟩⟩

/-- Helper for claim C5: decoding a list of JSON-encoded strings restores the
original string list. -/
theorem strListFromJson_map (xs : List String) :
    BLE.strListFromJson (Json.arr (xs.map Json.str)) = some xs := by
  induction xs with
  | nil => rfl
  | cons x rest ih =>
      simp only [BLE.strListFromJson, List.map_cons, List.mapM_cons] at ih ⊢
      rw [ih]
      rfl

/-- Counterexample to claim C5 as stated: the condensed CWT encoding omits
`metadata.issuedAt`, `metadata.proofType` and `metadata.context`, so two
packets differing in the proof type encode identically and no decoder can
reconstruct every packet from its condensed form. -/
theorem c5_counterexample :
    BLE.encodeAsCWT packetCwtA = BLE.encodeAsCWT packetCwtB
    ∧ packetCwtA ≠ packetCwtB
    ∧ ¬ ∃ d : Json → Option BLE.VCTransferPacket,
        ∀ p, d (BLE.encodeAsCWT p) = some p := by
  have hne : packetCwtA ≠ packetCwtB := by
    intro h
    have h2 := congrArg (fun p => p.metadata.proofType) h
    simp [packetCwtA, packetCwtB] at h2
  refine ⟨rfl, hne, ?_⟩
  rintro ⟨d, hd⟩
  have h1 := hd packetCwtA
  have h2 := hd packetCwtB
  rw [show BLE.encodeAsCWT packetCwtA = BLE.encodeAsCWT packetCwtB from rfl] at h1
  rw [h2] at h1
  exact hne (Option.some.inj h1).symm

/-- Claim C5 as amended: the plain JSON encoding round-trips field-for-field
for every packet; the condensed short-key encoding does not (see the
counterexample). -/
theorem c5_plain_roundtrip (p : BLE.VCTransferPacket) :
    BLE.decodeVCFromBLE (BLE.encodeVCForBLE p) = some p := by
  obtain ⟨credential, proof, ⟨issuer, issuedAt, expiresAt, proofType, context⟩,
    nonce, timestamp⟩ := p
  cases expiresAt with
  | none =>
      simp [BLE.decodeVCFromBLE, BLE.encodeVCForBLE, BLE.metadataToJson,
            BLE.metadataFromJson, Json.fieldOpt, Json.fieldOpt.lookupField,
            strListFromJson_map]
  | some t =>
      simp [BLE.decodeVCFromBLE, BLE.encodeVCForBLE, BLE.metadataToJson,
            BLE.metadataFromJson, Json.fieldOpt, Json.fieldOpt.lookupField,
            strListFromJson_map]

/-- Claim C6: on an initialized service with a positive configured threshold
(the default is 0.8), the match result is true exactly when the computed
confidence reaches the threshold, and an image in which the detection backend
finds zero faces yields a no-match result carrying the error naming that
image (reference checked first) rather than a bare zero confidence. -/
theorem c6_face_match (detect : FaceM.FaceImage → List FaceM.DetectedFace)
    (similarity : FaceM.DetectedFace → FaceM.DetectedFace → ℚ)
    (cfg : FaceM.FaceMatchConfig) (ref cand : FaceM.FaceImage)
    (hpos : 0 < cfg.confidenceThreshold) :
    FaceM.DEFAULT_FACE_MATCH_CONFIG.confidenceThreshold = 4/5
    ∧ ∃ r, FaceM.matchFaces true detect similarity cfg ref cand = .ok r
        ∧ (r.matched = true ↔ cfg.confidenceThreshold ≤ r.confidence)
        ∧ (detect ref = [] →
            r.matched = false ∧ r.confidence = 0
              ∧ r.error = some "No face detected in reference image")
        ∧ (detect ref ≠ [] → detect cand = [] →
            r.matched = false ∧ r.confidence = 0
              ∧ r.error = some "No face detected in candidate image") := by
  refine ⟨rfl, ?_⟩
  unfold FaceM.matchFaces FaceM.detectFaces
  simp only [Bool.not_true, Bool.false_eq_true, if_false]
  cases hr : detect ref with
  | nil =>
      refine ⟨_, rfl, ?_, ?_, ?_⟩
      · simp only [iff_def]
        constructor
        · intro h
          cases h
        · intro h
          exact absurd (lt_of_lt_of_le hpos h) (by norm_num)
      · intro _
        exact ⟨rfl, rfl, rfl⟩
      · intro hne
        exact absurd rfl hne
  | cons refFace refRest =>
      cases hc : detect cand with
      | nil =>
          refine ⟨_, rfl, ?_, ?_, ?_⟩
          · simp only [iff_def]
            constructor
            · intro h
              cases h
            · intro h
              exact absurd (lt_of_lt_of_le hpos h) (by norm_num)
          · intro h0
            exact absurd h0 (by simp)
          · intro _ _
            exact ⟨rfl, rfl, rfl⟩
      | cons candFace candRest =>
          refine ⟨_, rfl, ?_, ?_, ?_⟩
          · simp [decide_eq_true_iff]
          · intro h0
            exact absurd h0 (by simp)
          · intro _ h0
            exact absurd h0 (by simp)

/-- Witness for claim C6 at the default configuration with a detection
backend finding no faces: the result is no-match with the reference error. -/
theorem c6_witness :
    ∃ r, FaceM.matchFaces true (fun _ => []) (fun _ _ => 0)
        FaceM.DEFAULT_FACE_MATCH_CONFIG imgW imgW = .ok r
      ∧ r.matched = false ∧ r.confidence = 0
      ∧ r.error = some "No face detected in reference image" := by
  obtain ⟨-, r, hr, -, hempty, -⟩ :=
    c6_face_match (fun _ => []) (fun _ _ => 0) FaceM.DEFAULT_FACE_MATCH_CONFIG
      imgW imgW (by norm_num [FaceM.DEFAULT_FACE_MATCH_CONFIG])
  exact ⟨r, hr, hempty rfl⟩

/-- Counterexample to claim C8 as stated: the trust store marks cred-1 of the
government issuer revoked, yet the pipeline verdict for a packet carrying
exactly that credential reports success with an empty failure-reason list —
no revocation check is performed and no revoked field or reason exists in
the verdict. -/
theorem c8_counterexample :
    Trust.verifyCredentialRevocation stRevGov "did:mosip:issuer:gov" "cred-1" = false
    ∧ (BLE.verifyCredentialOffline envGood cfgVerifier packetGood).errors = []
    ∧ (BLE.verifyCredentialOffline envGood cfgVerifier packetGood).success = true :=
  ⟨rfl, rfl, rfl⟩

/-- Claim C8 as amended: the pipeline performs no revocation check at all.
Every failure reason a verdict can carry is one of the four fixed mandatory
check messages or a caught-exception message; none mentions revocation, and
the verdict type carries no revocation field. -/
theorem c8_no_revocation_stage (env : BLE.Env) (cfg : BLE.BLEVerificationConfig)
    (packet : BLE.VCTransferPacket) (e : String)
    (he : e ∈ (BLE.verifyCredentialOffline env cfg packet).errors) :
    e ∈ ["Invalid credential format", "Credential has expired", "Untrusted issuer",
         "Invalid digital signature"]
    ∨ ∃ m, e = "Verification error: " ++ m := by
  have hite : ∀ (b : Bool) (x : String), e ∈ (if b then ([] : List String) else [x]) → e = x := by
    intro b x h
    cases b with
    | false => simpa using h
    | true => simp at h
  unfold BLE.verifyCredentialOffline at he
  cases hE : BLE.checkExpiration env.now packet.credential with
  | error msg =>
      rw [hE] at he
      simp only [BLE.catchVerdict, List.mem_append] at he
      rcases he with h | h
      · exact Or.inl (by simp [hite _ _ h])
      · exact Or.inr ⟨msg, by simpa using h⟩
  | ok notExpired =>
      rw [hE] at he
      dsimp only at he
      cases hS : BLE.verifySignatureBLE env packet.credential with
      | error msg =>
          rw [hS] at he
          simp only [BLE.catchVerdict, List.mem_append] at he
          rcases he with ((h | h) | h) | h
          · exact Or.inl (by simp [hite _ _ h])
          · exact Or.inl (by simp [hite _ _ h])
          · exact Or.inl (by simp [hite _ _ h])
          · exact Or.inr ⟨msg, by simpa using h⟩
      | ok signatureValid =>
          rw [hS] at he
          dsimp only at he
          simp only [List.mem_append] at he
          rcases he with ((h | h) | h) | h
          · exact Or.inl (by simp [hite _ _ h])
          · exact Or.inl (by simp [hite _ _ h])
          · exact Or.inl (by simp [hite _ _ h])
          · exact Or.inl (by simp [hite _ _ h])

/-- Witness for the amended claim C8 at a concrete failing run whose verdict
carries the format failure reason. -/
theorem c8_witness :
    "Invalid credential format"
      ∈ ["Invalid credential format", "Credential has expired", "Untrusted issuer",
         "Invalid digital signature"]
    ∨ ∃ m, "Invalid credential format" = "Verification error: " ++ m :=
  c8_no_revocation_stage envGood cfgVerifier packetNull "Invalid credential format"
    (by decide)
